import Mathlib

/-!
Verification of the namespace-plugging engine
(`octavia/amphorae/backends/agent/api_server/plug.py`).

The Python module is embedded shallowly: the kernel / filesystem
environment is an explicit `World` record, each operation of the `Plug`
class is a Lean function from a `World` to a result, the mutated
`World`, and a trace of observable side effects (`Event`s).  External
collaborators (the Python standard library's address parsers, the
`osutils` configuration writer, `pyroute2`) are modelled as explicit
environment data; the control flow of the `Plug` methods follows the
source line by line.
-/

namespace Plug

/-! ## Character-level helpers (executable models of Python string ops) -/

/-- Splits a character list on a separator character, keeping empty
segments, as Python `str.split(sep)` does. -/
def splitOnChar (c : Char) : List Char → List (List Char)
  | [] => [[]]
  | x :: xs =>
    let r := splitOnChar c xs
    if x = c then [] :: r
    else
      match r with
      | [] => [[x]]
      | g :: gs => (x :: g) :: gs

/-- Whitespace as recognised by Python `str.split()` (no argument). -/
def isSpaceChar (c : Char) : Bool := c == ' ' || c == '\t' || c == '\n' || c == '\r'

/-- Model of `line.split()[0].rstrip()` from
`_update_plugged_interfaces_file`: the first maximal run of
non-whitespace characters of the line (empty if the line is blank — in
Python a blank line would raise `IndexError`, but no blank line is ever
written by the code itself). -/
def firstTok (s : String) : String :=
  ⟨(s.data.dropWhile isSpaceChar).takeWhile (fun c => !isSpaceChar c)⟩

def isDigitChar (c : Char) : Bool := '0' ≤ c && c ≤ '9'

def isHexChar (c : Char) : Bool :=
  isDigitChar c || ('a' ≤ c && c ≤ 'f') || ('A' ≤ c && c ≤ 'F')

def digitsToNat (g : List Char) : Nat :=
  g.foldl (fun a c => a * 10 + (c.toNat - '0'.toNat)) 0

/-! ## Environment model: Python address parsing

`ipaddress.ip_address`, `ipaddress.ip_network` and `socket.inet_pton`
are Python standard-library collaborators, not code of this repository.
They are modelled executably: IPv4 is the canonical dotted quad (four
decimal octets, no leading zeros, each at most 255); IPv6 is modelled by
its full form (eight groups of one to four hex digits).  The claims
under verification treat parse success/failure as an opaque outcome, so
this level of fidelity suffices. -/

/-- One dotted-quad octet: one to three digits, no leading zero, value
at most 255. -/
def validOctet (g : List Char) : Bool :=
  decide (g ≠ []) && decide (g.length ≤ 3) && g.all isDigitChar &&
    (decide (g.length = 1) || decide (g.head? ≠ some '0')) &&
    decide (digitsToNat g ≤ 255)

/-- Model of IPv4 textual syntax (dotted quad). -/
def isIPv4 (s : String) : Bool :=
  let gs := splitOnChar '.' s.data
  decide (gs.length = 4) && gs.all validOctet

/-- One IPv6 group: one to four hex digits. -/
def validHexGroup (g : List Char) : Bool :=
  decide (g ≠ []) && decide (g.length ≤ 4) && g.all isHexChar

/-- Model of IPv6 textual syntax (full eight-group form). -/
def isIPv6 (s : String) : Bool :=
  let gs := splitOnChar ':' s.data
  decide (gs.length = 8) && gs.all validHexGroup

/-- Result of `ipaddress.ip_address`: the address family and the
exploded textual form (identified with the input for the canonical
forms this model accepts). -/
structure IpAddr where
  version : Nat
  exploded : String
deriving DecidableEq, Repr

/-- Model of `ipaddress.ip_address`: `some` exactly when the string
parses as IPv4 or IPv6, `none` standing for the `ValueError` path. -/
def ip_address (s : String) : Option IpAddr :=
  if isIPv4 s then some ⟨4, s⟩
  else if isIPv6 s then some ⟨6, s⟩
  else none

/-- Result of `ipaddress.ip_network`: the only attribute the source
reads is `prefixlen`. -/
structure IpNetwork where
  prefixlen : Nat
deriving DecidableEq, Repr

/-- Model of `ipaddress.ip_network` on CIDR input: address part must
parse in some family and the prefix length must fit that family.  (The
host-bits strictness check of the Python library is elided; no claim
depends on it.) -/
def ip_network (s : String) : Option IpNetwork :=
  match splitOnChar '/' s.data with
  | [addr, plen] =>
    if decide (plen ≠ []) && plen.all isDigitChar then
      let n := digitsToNat plen
      if isIPv4 ⟨addr⟩ && decide (n ≤ 32) then some ⟨n⟩
      else if isIPv6 ⟨addr⟩ && decide (n ≤ 128) then some ⟨n⟩
      else none
    else none
  | [addr] =>
    if isIPv4 ⟨addr⟩ then some ⟨32⟩
    else if isIPv6 ⟨addr⟩ then some ⟨128⟩
    else none
  | _ => none

/-! ## Data model: links, the world, observable events -/

/-- A kernel network device: stable hardware address, namespace-scoped
mutable name. -/
structure Link where
  mac : String
  name : String
deriving DecidableEq, Repr

/-- The loopback device a freshly created network namespace contains. -/
def loopback : Link := ⟨"00:00:00:00:00:00", "lo"⟩

/-- The kernel / filesystem environment visible to the plug engine:
links of the default namespace, existence and links of the amphora
namespace, the lines of the plugged-interfaces ledger file, whether the
PCI rescan trigger file exists, and the exit status the environment
gives each spawned command. -/
structure World where
  defaultLinks : List Link
  netnsExists : Bool
  netnsLinks : List Link
  ledger : List String
  rescanFileExists : Bool
  exitCode : List String → Int

/-- Observable side effects, in program order. -/
inductive Event where
  | writeInterfaceFile (interface ip_addr : String) (prefixlen : Nat)
  | writeVipFile (interface vip : String) (ip_version prefixlen : Nat)
      (gateway : String) (mtu : Option Nat) (vrrp_ip : Option String)
      (host_routes : List String)
  | writePortFile (interface : String) (fixed_ips : List String) (mtu : Option Nat)
  | ledgerAppend (line : String)
  | netnsCreate
  | nsCmd (cmd : List String) (exit_status : Int)
  | linkMove (mac newName : String)
  | rescanWrite
  | bringUp (interface : String)
  | bringDown (interface : String)
deriving DecidableEq, Repr

/-- HTTP-ish response: status code and message/details text
(`webob.Response`). -/
structure Response where
  status : Nat
  message : String
deriving DecidableEq, Repr

/-- `consts.NETNS_PRIMARY_INTERFACE`.  The constants module is outside
the sources; the source comments fix the value: "Always put the VIP
interface as eth1". -/
def NETNS_PRIMARY_INTERFACE : String := "eth1"

/-- Modelled from the spec: `consts.SYSCTL_CMD`, "the system
sysctl-reload command name" (the constants module is outside the
sources).  Its concrete value is irrelevant to every claim. -/
def SYSCTL_CMD : String := "sysctl"

/-! ## Embedded operations -/

/-- `pyroute2.NetNS(consts.AMPHORA_NAMESPACE, flags=os.O_CREAT)`:
create-if-absent semantics; a fresh namespace holds only loopback. -/
def ensureNetns (w : World) : World :=
  if w.netnsExists then w else { w with netnsExists := true, netnsLinks := [loopback] }

/-- `Plug._netns_interface_exists`: opens the namespace with `O_CREAT`
(creating it when absent) and scans its links for one whose
`IFLA_ADDRESS` attribute equals the given hardware address. -/
def netns_interface_exists (mac_address : String) (w : World) :
    Bool × World × List Event :=
  ((ensureNetns w).netnsLinks.any (fun l => l.mac == mac_address),
   ensureNetns w,
   if w.netnsExists then [] else [Event.netnsCreate])

/-- `Plug._interface_by_mac`: one `link_lookup` by hardware address in
the default namespace.  On success returns the `IFLA_IFNAME` of the
link; on failure writes `'1'` to `/sys/bus/pci/rescan` (only if that
trigger file exists) and raises an `HTTPException` carrying a 404
response, modelled as the `Except.error` branch. -/
def interface_by_mac (mac : String) (w : World) :
    Except Response String × List Event :=
  match w.defaultLinks.find? (fun l => l.mac == mac) with
  | some l => (Except.ok l.name, [])
  | none =>
    (Except.error ⟨404, "No suitable network interface found"⟩,
     if w.rescanFileExists then [Event.rescanWrite] else [])

/-- `Plug._update_plugged_interfaces_file(interface, mac_address)`:
reads the ledger, takes the first whitespace token of every line, and
appends `"<mac_address> <interface>"` unless some line's first token
already equals `mac_address`. -/
def update_plugged_interfaces_file (interface mac_address : String) (w : World) :
    World × List Event :=
  if mac_address ∈ w.ledger.map firstTok then (w, [])
  else
    ({ w with ledger := w.ledger ++ [mac_address ++ " " ++ interface] },
     [Event.ledgerAppend (mac_address ++ " " ++ interface)])

/-- Removes the first link carrying the hardware address (the effect of
moving `ipr.link_lookup(address=mac)[0]` out of the default
namespace). -/
def removeFirstMac (mac : String) : List Link → List Link
  | [] => []
  | l :: ls => if l.mac == mac then ls else l :: removeFirstMac mac ls

/-- `ipr.link_lookup(address=mac)[0]` followed by
`ipr.link('set', index=idx, net_ns_fd=..., IFLA_IFNAME=newName)`: the
first default-namespace link with the hardware address is moved into
the amphora namespace under the new name.  `none` models the
`IndexError` raised when no such link exists. -/
def link_move (mac newName : String) (w : World) : Option (World × List Event) :=
  match w.defaultLinks.find? (fun l => l.mac == mac) with
  | some _ =>
    some ({ w with defaultLinks := removeFirstMac mac w.defaultLinks,
                   netnsLinks := w.netnsLinks ++ [⟨mac, newName⟩] },
          [Event.linkMove mac newName])
  | none => none

/-- The `cmd_list` built in `plug_vip` lines 98–106: `modprobe ip_vs`,
the conntrack sysctl, then the family-specific forwarding sysctl. -/
def cmd_list (ip_version : Nat) : List (List String) :=
  let base := [["modprobe", "ip_vs"],
               [SYSCTL_CMD, "-w", "net.ipv4.vs.conntrack=1"]]
  if ip_version = 4 then base ++ [[SYSCTL_CMD, "-w", "net.ipv4.ip_forward=1"]]
  else if ip_version = 6 then base ++ [[SYSCTL_CMD, "-w", "net.ipv6.conf.all.forwarding=1"]]
  else base

/-- `Plug.plug_lo`. -/
def plug_lo (w : World) : World × List Event :=
  (w, [Event.writeInterfaceFile "lo" "127.0.0.1" 8])

/-- `Plug.plug_vip`, line by line: parse vip and cidr (ValueError →
400); idempotency guard via `_netns_interface_exists` (409);
`_interface_by_mac` (404 via raised exception); write the VIP interface
file for the fixed primary name; ledger update; `NetNS(O_CREAT)`;
`sysctl --system` in the namespace; the `cmd_list` loop (each command
spawned and waited on, exit status unexamined); link move+rename into
the namespace; bring up; 202. -/
def plug_vip (vip subnet_cidr gateway mac_address : String) (mtu : Option Nat)
    (vrrp_ip : Option String) (host_routes : List String) (w : World) :
    Response × World × List Event :=
  match ip_address vip, ip_network subnet_cidr with
  | some ip, some network =>
    let vip2 := ip.exploded
    let prefixlen := network.prefixlen
    let g := netns_interface_exists mac_address w
    if g.1 then (⟨409, "Interface already exists"⟩, g.2.1, g.2.2)
    else
      match interface_by_mac mac_address g.2.1 with
      | (Except.error resp, e2) => (resp, g.2.1, g.2.2 ++ e2)
      | (Except.ok _, _) =>
        let primary_interface := NETNS_PRIMARY_INTERFACE
        let eWrite := Event.writeVipFile primary_interface vip2 ip.version prefixlen
          gateway mtu vrrp_ip host_routes
        let rec1 := update_plugged_interfaces_file primary_interface mac_address g.2.1
        let eCreate : List Event := if rec1.1.netnsExists then [] else [Event.netnsCreate]
        let w3 := ensureNetns rec1.1
        let eCmds := Event.nsCmd [SYSCTL_CMD, "--system"]
            (w3.exitCode [SYSCTL_CMD, "--system"]) ::
          (cmd_list ip.version).map (fun c => Event.nsCmd c (w3.exitCode c))
        match link_move mac_address primary_interface w3 with
        | some mv =>
          (⟨202, "VIP " ++ vip2 ++ " plugged on interface " ++ primary_interface⟩,
           mv.1,
           g.2.2 ++ [eWrite] ++ rec1.2 ++ eCreate ++ eCmds ++ mv.2 ++
             [Event.bringUp primary_interface])
        | none =>
          (⟨500, "Internal Server Error"⟩, w3,
           g.2.2 ++ [eWrite] ++ rec1.2 ++ eCreate ++ eCmds)
  | _, _ => (⟨400, "Invalid VIP"⟩, w, [])

/-- `Plug._check_ip_addresses`: every fixed IP must satisfy
`inet_pton(AF_INET, ·)` or, failing that, `inet_pton(AF_INET6, ·)`;
otherwise `socket.error` escapes. -/
def check_ip_addresses (fixed_ips : List String) : Bool :=
  fixed_ips.all (fun ip => isIPv4 ip || isIPv6 ip)

/-- `Plug.plug_network`, line by line: idempotency guard (409, and the
guard's `O_CREAT` namespace open); fixed-IP validation (400);
`_interface_by_mac` (404); `NetNS(O_CREAT)` again and naming the new
interface `eth{len(netns.get_links())}`; port interface file write;
ledger update; link move+rename; bring down then up; 202. -/
def plug_network (mac_address : String) (fixed_ips : List String) (mtu : Option Nat)
    (w : World) : Response × World × List Event :=
  let g := netns_interface_exists mac_address w
  if g.1 then (⟨409, "Interface already exists"⟩, g.2.1, g.2.2)
  else if !check_ip_addresses fixed_ips then
    (⟨400, "Invalid network port"⟩, g.2.1, g.2.2)
  else
    match interface_by_mac mac_address g.2.1 with
    | (Except.error resp, e2) => (resp, g.2.1, g.2.2 ++ e2)
    | (Except.ok _, _) =>
      let eCreate : List Event := if g.2.1.netnsExists then [] else [Event.netnsCreate]
      let w1 := ensureNetns g.2.1
      let netns_interface := "eth" ++ toString w1.netnsLinks.length
      let eWrite := Event.writePortFile netns_interface fixed_ips mtu
      let rec1 := update_plugged_interfaces_file netns_interface mac_address w1
      match link_move mac_address netns_interface rec1.1 with
      | some mv =>
        (⟨202, "Plugged on interface " ++ netns_interface⟩, mv.1,
         g.2.2 ++ eCreate ++ [eWrite] ++ rec1.2 ++ mv.2 ++
           [Event.bringDown netns_interface, Event.bringUp netns_interface])
      | none =>
        (⟨500, "Internal Server Error"⟩, rec1.1,
         g.2.2 ++ eCreate ++ [eWrite] ++ rec1.2)

/-! ## Derived notions used by the claims -/

/-- Number of ledger lines whose first token is the given hardware
address. -/
def ledgerCount (ledger : List String) (mac : String) : Nat :=
  ledger.countP (fun line => firstTok line == mac)

/-- A plausible hardware-address string: nonempty and free of
whitespace (every real MAC address satisfies this). -/
def validMac (mac : String) : Bool :=
  decide (mac ≠ "") && mac.data.all (fun c => !isSpaceChar c)

/-- The namespace-scoped commands recorded in a trace, in order. -/
def cmdsOf (es : List Event) : List (List String) :=
  es.filterMap (fun e => match e with | Event.nsCmd c _ => some c | _ => none)

/-- The namespace-scoped command runs recorded in a trace, each with
the exit status the environment returned when the command was waited
on. -/
def cmdRunsOf (es : List Event) : List (List String × Int) :=
  es.filterMap (fun e => match e with | Event.nsCmd c x => some (c, x) | _ => none)

/-- A sequence of calls to `_update_plugged_interfaces_file`, each pair
being (hardware address, assigned name). -/
def runRecords : List (String × String) → World → World
  | [], w => w
  | p :: ps, w => runRecords ps (update_plugged_interfaces_file p.2 p.1 w).1

/-! ## Concrete demonstration environments -/

def demoMac : String := "fa:16:3e:aa:bb:cc"

def demoMac2 : String := "fa:16:3e:dd:ee:ff"

/-- Fresh appliance: one data link in the default namespace, no amphora
namespace yet, empty ledger, rescan trigger present, all commands
succeed. -/
def wDemo : World :=
  { defaultLinks := [⟨demoMac, "ens3"⟩], netnsExists := false, netnsLinks := [],
    ledger := [], rescanFileExists := true, exitCode := fun _ => 0 }

/-- Same appliance, but the environment reports exit status 1 for
`modprobe ip_vs`. -/
def wBadExit : World :=
  { wDemo with exitCode := fun c => if c = ["modprobe", "ip_vs"] then 1 else 0 }

/-- Appliance after a VIP plug: the namespace holds loopback and the
VIP carrier (two links), a second data link waits in the default
namespace. -/
def wTwoLinks : World :=
  { defaultLinks := [⟨demoMac2, "ens4"⟩], netnsExists := true,
    netnsLinks := [loopback, ⟨demoMac, "eth1"⟩], ledger := [demoMac ++ " eth1"],
    rescanFileExists := true, exitCode := fun _ => 0 }

/-- Appliance with no data link at all in the default namespace. -/
def wNoLink : World :=
  { defaultLinks := [], netnsExists := false, netnsLinks := [],
    ledger := [], rescanFileExists := true, exitCode := fun _ => 0 }

/-! ## Projection lemmas for the embedded operations -/

theorem ensureNetns_defaultLinks (w : World) :
    (ensureNetns w).defaultLinks = w.defaultLinks := by
  unfold ensureNetns; split <;> rfl

theorem ensureNetns_ledger (w : World) : (ensureNetns w).ledger = w.ledger := by
  unfold ensureNetns; split <;> rfl

theorem ensureNetns_rescanFileExists (w : World) :
    (ensureNetns w).rescanFileExists = w.rescanFileExists := by
  unfold ensureNetns; split <;> rfl

theorem ensureNetns_exitCode (w : World) : (ensureNetns w).exitCode = w.exitCode := by
  unfold ensureNetns; split <;> rfl

theorem ensureNetns_netnsExists (w : World) : (ensureNetns w).netnsExists = true := by
  unfold ensureNetns; split <;> simp_all

theorem ensureNetns_of_exists {w : World} (h : w.netnsExists = true) :
    ensureNetns w = w := by
  unfold ensureNetns; simp [h]

theorem ensureNetns_netnsLinks (w : World) :
    (ensureNetns w).netnsLinks = if w.netnsExists then w.netnsLinks else [loopback] := by
  unfold ensureNetns; split <;> simp_all

theorem upd_defaultLinks (i m : String) (w : World) :
    ((update_plugged_interfaces_file i m w).1).defaultLinks = w.defaultLinks := by
  unfold update_plugged_interfaces_file; split <;> rfl

theorem upd_netnsExists (i m : String) (w : World) :
    ((update_plugged_interfaces_file i m w).1).netnsExists = w.netnsExists := by
  unfold update_plugged_interfaces_file; split <;> rfl

theorem upd_netnsLinks (i m : String) (w : World) :
    ((update_plugged_interfaces_file i m w).1).netnsLinks = w.netnsLinks := by
  unfold update_plugged_interfaces_file; split <;> rfl

theorem upd_rescanFileExists (i m : String) (w : World) :
    ((update_plugged_interfaces_file i m w).1).rescanFileExists = w.rescanFileExists := by
  unfold update_plugged_interfaces_file; split <;> rfl

theorem upd_exitCode (i m : String) (w : World) :
    ((update_plugged_interfaces_file i m w).1).exitCode = w.exitCode := by
  unfold update_plugged_interfaces_file; split <;> rfl

theorem upd_ledger (i m : String) (w : World) :
    ((update_plugged_interfaces_file i m w).1).ledger =
      if m ∈ w.ledger.map firstTok then w.ledger else w.ledger ++ [m ++ " " ++ i] := by
  unfold update_plugged_interfaces_file
  split <;> rfl

theorem upd_events (i m : String) (w : World) :
    (update_plugged_interfaces_file i m w).2 =
      if m ∈ w.ledger.map firstTok then []
      else [Event.ledgerAppend (m ++ " " ++ i)] := by
  unfold update_plugged_interfaces_file
  split <;> rfl

/-- Characterisation of the success path of `plug_vip`: with valid
inputs, the hardware address not yet in the namespace, and the hardware
address present in the default namespace, the call returns 202 and
performs exactly the source's sequence of effects. -/
theorem plug_vip_success (vip cidr gw mac : String) (mtu : Option Nat)
    (vr : Option String) (hr : List String) (w : World) (a : IpAddr)
    (nw : IpNetwork) (l0 : Link)
    (h1 : ip_address vip = some a) (h2 : ip_network cidr = some nw)
    (h3 : (ensureNetns w).netnsLinks.any (fun l => l.mac == mac) = false)
    (h4 : w.defaultLinks.find? (fun l => l.mac == mac) = some l0) :
    plug_vip vip cidr gw mac mtu vr hr w =
      (⟨202, "VIP " ++ a.exploded ++ " plugged on interface " ++ NETNS_PRIMARY_INTERFACE⟩,
       { defaultLinks := removeFirstMac mac w.defaultLinks
         netnsExists := true
         netnsLinks := (ensureNetns w).netnsLinks ++ [⟨mac, NETNS_PRIMARY_INTERFACE⟩]
         ledger := ((update_plugged_interfaces_file NETNS_PRIMARY_INTERFACE mac
           (ensureNetns w)).1).ledger
         rescanFileExists := w.rescanFileExists
         exitCode := w.exitCode },
       (if w.netnsExists then [] else [Event.netnsCreate]) ++
         [Event.writeVipFile NETNS_PRIMARY_INTERFACE a.exploded a.version nw.prefixlen
           gw mtu vr hr] ++
         (update_plugged_interfaces_file NETNS_PRIMARY_INTERFACE mac (ensureNetns w)).2 ++
         (Event.nsCmd [SYSCTL_CMD, "--system"] (w.exitCode [SYSCTL_CMD, "--system"]) ::
           (cmd_list a.version).map (fun c => Event.nsCmd c (w.exitCode c))) ++
         [Event.linkMove mac NETNS_PRIMARY_INTERFACE] ++
         [Event.bringUp NETNS_PRIMARY_INTERFACE]) := by
  unfold plug_vip
  rw [h1, h2]
  simp only [netns_interface_exists, h3, Bool.false_eq_true, if_false]
  unfold interface_by_mac
  rw [ensureNetns_defaultLinks, h4]
  simp only [link_move, upd_defaultLinks, ensureNetns_defaultLinks, h4,
    ensureNetns_of_exists, upd_netnsExists, ensureNetns_netnsExists,
    upd_netnsLinks, upd_rescanFileExists, upd_exitCode, ensureNetns_ledger,
    ensureNetns_rescanFileExists, ensureNetns_exitCode]
  simp

/-- `takeWhile` passes over a block of characters that all satisfy the
predicate. -/
theorem takeWhile_append_of_all {p : Char → Bool} (l r : List Char)
    (h : ∀ c ∈ l, p c = true) :
    (l ++ r).takeWhile p = l ++ r.takeWhile p := by
  induction l with
  | nil => simp
  | cons c cs ih =>
    have hc : p c = true := h c (by simp)
    simp only [List.cons_append, List.takeWhile_cons, hc, if_true]
    rw [ih (fun d hd => h d (by simp [hd]))]

/-- The first token of a written ledger line is the recorded hardware
address, provided the address is nonempty and whitespace-free. -/
theorem firstTok_of_validMac (mac i : String) (h : validMac mac = true) :
    firstTok (mac ++ " " ++ i) = mac := by
  unfold validMac at h
  simp only [Bool.and_eq_true, decide_eq_true_eq] at h
  obtain ⟨hne, hall⟩ := h
  have hdata : (mac ++ " " ++ i).data = mac.data ++ ' ' :: i.data := by
    simp [String.data_append]
  have hnodata : mac.data ≠ [] := by
    intro hd
    exact hne (by cases mac; simp_all)
  have hallc : ∀ c ∈ mac.data, (!isSpaceChar c) = true := by
    intro c hc
    exact (List.all_eq_true.mp hall) c hc
  unfold firstTok
  rw [hdata]
  cases hm : mac.data with
  | nil => exact absurd hm hnodata
  | cons c cs =>
    have hc : (!isSpaceChar c) = true := hallc c (by rw [hm]; simp)
    have hcs : ∀ d ∈ cs, (!isSpaceChar d) = true := by
      intro d hd
      exact hallc d (by rw [hm]; simp [hd])
    have hcspace : isSpaceChar c = false := by
      cases hh : isSpaceChar c <;> simp_all
    simp only [List.cons_append, List.dropWhile_cons, hcspace, Bool.false_eq_true,
      if_false, List.takeWhile_cons, hc, if_true]
    rw [takeWhile_append_of_all cs (' ' :: i.data) hcs]
    have : List.takeWhile (fun c => !isSpaceChar c) (' ' :: i.data) = [] := by
      simp [List.takeWhile_cons, isSpaceChar]
    rw [this, List.append_nil]
    cases mac
    simp_all

/-- A ledger containing a line whose first token is `mac` counts at
least one such line. -/
theorem ledgerCount_pos_of_mem {L : List String} {mac : String}
    (h : mac ∈ L.map firstTok) : 1 ≤ ledgerCount L mac := by
  unfold ledgerCount
  obtain ⟨line, hline, heq⟩ := List.mem_map.mp h
  have : 0 < L.countP (fun line => firstTok line == mac) :=
    List.countP_pos_iff.mpr ⟨line, hline, by simp [heq]⟩
  omega

theorem ledgerCount_eq_zero_of_not_mem {L : List String} {mac : String}
    (h : mac ∉ L.map firstTok) : ledgerCount L mac = 0 := by
  unfold ledgerCount
  rw [List.countP_eq_zero]
  intro line hline
  simp only [beq_iff_eq]
  intro heq
  exact h (List.mem_map.mpr ⟨line, hline, heq⟩)

theorem ledgerCount_append (L M : List String) (mac : String) :
    ledgerCount (L ++ M) mac = ledgerCount L mac + ledgerCount M mac := by
  unfold ledgerCount
  exact List.countP_append _ _ _

/-- A single recorded line for `mac` counts exactly one. -/
theorem ledgerCount_singleton_self (mac i : String) (h : validMac mac = true) :
    ledgerCount [mac ++ " " ++ i] mac = 1 := by
  unfold ledgerCount
  simp [List.countP_cons, firstTok_of_validMac mac i h]

/-- `link_move` leaves the namespace-existence flag untouched. -/
theorem link_move_netnsExists {m n : String} {w : World} {mv : World × List Event}
    (h : link_move m n w = some mv) : mv.1.netnsExists = w.netnsExists := by
  unfold link_move at h
  split at h
  · cases h; rfl
  · cases h

/-- Guard branch of `plug_vip`: a hardware address already inside the
namespace yields 409 and no effect beyond the guard's own namespace
creation. -/
theorem plug_vip_conflict (vip cidr gw mac : String) (mtu : Option Nat)
    (vr : Option String) (hr : List String) (w : World) (a : IpAddr) (nw : IpNetwork)
    (h1 : ip_address vip = some a) (h2 : ip_network cidr = some nw)
    (hg : (ensureNetns w).netnsLinks.any (fun l => l.mac == mac) = true) :
    plug_vip vip cidr gw mac mtu vr hr w =
      (⟨409, "Interface already exists"⟩, ensureNetns w,
       if w.netnsExists then [] else [Event.netnsCreate]) := by
  unfold plug_vip
  rw [h1, h2]
  simp only [netns_interface_exists, hg, if_true]

/-- Characterisation of the success path of `plug_network`. -/
theorem plug_network_success (mac : String) (ips : List String) (mtu : Option Nat)
    (w : World) (l0 : Link)
    (h3 : (ensureNetns w).netnsLinks.any (fun l => l.mac == mac) = false)
    (hchk : check_ip_addresses ips = true)
    (h4 : w.defaultLinks.find? (fun l => l.mac == mac) = some l0) :
    plug_network mac ips mtu w =
      (⟨202, "Plugged on interface " ++ ("eth" ++ toString (ensureNetns w).netnsLinks.length)⟩,
       { defaultLinks := removeFirstMac mac w.defaultLinks
         netnsExists := true
         netnsLinks := (ensureNetns w).netnsLinks ++
           [⟨mac, "eth" ++ toString (ensureNetns w).netnsLinks.length⟩]
         ledger := ((update_plugged_interfaces_file
           ("eth" ++ toString (ensureNetns w).netnsLinks.length) mac (ensureNetns w)).1).ledger
         rescanFileExists := w.rescanFileExists
         exitCode := w.exitCode },
       (if w.netnsExists then [] else [Event.netnsCreate]) ++
         [Event.writePortFile ("eth" ++ toString (ensureNetns w).netnsLinks.length) ips mtu] ++
         (update_plugged_interfaces_file ("eth" ++ toString (ensureNetns w).netnsLinks.length)
           mac (ensureNetns w)).2 ++
         [Event.linkMove mac ("eth" ++ toString (ensureNetns w).netnsLinks.length)] ++
         [Event.bringDown ("eth" ++ toString (ensureNetns w).netnsLinks.length),
          Event.bringUp ("eth" ++ toString (ensureNetns w).netnsLinks.length)]) := by
  unfold plug_network
  simp only [netns_interface_exists, h3, Bool.false_eq_true, if_false, hchk,
    Bool.not_true, Bool.false_eq_true, if_false]
  unfold interface_by_mac
  rw [ensureNetns_defaultLinks, h4]
  simp only [link_move, upd_defaultLinks, ensureNetns_defaultLinks, h4,
    ensureNetns_of_exists, upd_netnsExists, ensureNetns_netnsExists,
    upd_netnsLinks, upd_rescanFileExists, upd_exitCode, ensureNetns_ledger,
    ensureNetns_rescanFileExists, ensureNetns_exitCode]
  simp

/-- Not-found branch of `plug_vip`: valid inputs, hardware address not
in the namespace and absent from the default namespace. -/
theorem plug_vip_notfound (vip cidr gw mac : String) (mtu : Option Nat)
    (vr : Option String) (hr : List String) (w : World) (a : IpAddr) (nw : IpNetwork)
    (h1 : ip_address vip = some a) (h2 : ip_network cidr = some nw)
    (h3 : (ensureNetns w).netnsLinks.any (fun l => l.mac == mac) = false)
    (h4 : w.defaultLinks.find? (fun l => l.mac == mac) = none) :
    plug_vip vip cidr gw mac mtu vr hr w =
      (⟨404, "No suitable network interface found"⟩, ensureNetns w,
       (if w.netnsExists then [] else [Event.netnsCreate]) ++
         (if w.rescanFileExists then [Event.rescanWrite] else [])) := by
  unfold plug_vip
  rw [h1, h2]
  simp only [netns_interface_exists, h3, Bool.false_eq_true, if_false]
  unfold interface_by_mac
  rw [ensureNetns_defaultLinks, h4]
  simp [ensureNetns_rescanFileExists]

/-- Guard branch of `plug_network`. -/
theorem plug_network_conflict (mac : String) (ips : List String) (mtu : Option Nat)
    (w : World)
    (hg : (ensureNetns w).netnsLinks.any (fun l => l.mac == mac) = true) :
    plug_network mac ips mtu w =
      (⟨409, "Interface already exists"⟩, ensureNetns w,
       if w.netnsExists then [] else [Event.netnsCreate]) := by
  unfold plug_network
  simp only [netns_interface_exists, hg, if_true]

/-- Validation branch of `plug_network`: some fixed IP fails both
address families.  The only state change is the guard's namespace
creation. -/
theorem plug_network_invalid (mac : String) (ips : List String) (mtu : Option Nat)
    (w : World)
    (hg : (ensureNetns w).netnsLinks.any (fun l => l.mac == mac) = false)
    (hchk : check_ip_addresses ips = false) :
    plug_network mac ips mtu w =
      (⟨400, "Invalid network port"⟩, ensureNetns w,
       if w.netnsExists then [] else [Event.netnsCreate]) := by
  unfold plug_network
  simp only [netns_interface_exists, hg, Bool.false_eq_true, if_false, hchk,
    Bool.not_false, if_true]

/-- Not-found branch of `plug_network`. -/
theorem plug_network_notfound (mac : String) (ips : List String) (mtu : Option Nat)
    (w : World)
    (hg : (ensureNetns w).netnsLinks.any (fun l => l.mac == mac) = false)
    (hchk : check_ip_addresses ips = true)
    (h4 : w.defaultLinks.find? (fun l => l.mac == mac) = none) :
    plug_network mac ips mtu w =
      (⟨404, "No suitable network interface found"⟩, ensureNetns w,
       (if w.netnsExists then [] else [Event.netnsCreate]) ++
         (if w.rescanFileExists then [Event.rescanWrite] else [])) := by
  unfold plug_network
  simp only [netns_interface_exists, hg, Bool.false_eq_true, if_false, hchk,
    Bool.not_true, if_false]
  unfold interface_by_mac
  rw [ensureNetns_defaultLinks, h4]
  simp [ensureNetns_rescanFileExists]

/-! ## Trace observations -/

theorem cmdsOf_append (a b : List Event) : cmdsOf (a ++ b) = cmdsOf a ++ cmdsOf b := by
  unfold cmdsOf
  exact List.filterMap_append _ _ _

theorem cmdsOf_nsCmds (cs : List (List String)) (f : List String → Int) :
    cmdsOf (cs.map (fun c => Event.nsCmd c (f c))) = cs := by
  induction cs with
  | nil => rfl
  | cons c cs ih => simp [cmdsOf, List.filterMap_cons] at ih ⊢; exact ih

theorem cmdsOf_cons_nsCmd (c : List String) (x : Int) (es : List Event) :
    cmdsOf (Event.nsCmd c x :: es) = c :: cmdsOf es := by
  simp [cmdsOf, List.filterMap_cons]

theorem cmdsOf_ite_create (c : Prop) [Decidable c] :
    cmdsOf (if c then [] else [Event.netnsCreate]) = [] := by
  split <;> rfl

theorem cmdsOf_upd (i m : String) (w : World) :
    cmdsOf (update_plugged_interfaces_file i m w).2 = [] := by
  rw [upd_events]; split <;> rfl

theorem cmdRunsOf_append (a b : List Event) :
    cmdRunsOf (a ++ b) = cmdRunsOf a ++ cmdRunsOf b := by
  unfold cmdRunsOf
  exact List.filterMap_append _ _ _

theorem cmdRunsOf_nsCmds (cs : List (List String)) (f : List String → Int) :
    cmdRunsOf (cs.map (fun c => Event.nsCmd c (f c))) = cs.map (fun c => (c, f c)) := by
  induction cs with
  | nil => rfl
  | cons c cs ih => simp [cmdRunsOf, List.filterMap_cons] at ih ⊢; exact ih

theorem cmdRunsOf_cons_nsCmd (c : List String) (x : Int) (es : List Event) :
    cmdRunsOf (Event.nsCmd c x :: es) = (c, x) :: cmdRunsOf es := by
  simp [cmdRunsOf, List.filterMap_cons]

theorem cmdRunsOf_ite_create (c : Prop) [Decidable c] :
    cmdRunsOf (if c then [] else [Event.netnsCreate]) = [] := by
  split <;> rfl

theorem cmdRunsOf_upd (i m : String) (w : World) :
    cmdRunsOf (update_plugged_interfaces_file i m w).2 = [] := by
  rw [upd_events]; split <;> rfl

/-- Every branch of `plug_vip` past input validation leaves the
namespace in existence. -/
theorem plug_vip_world_netnsExists (vip cidr gw mac : String) (mtu : Option Nat)
    (vr : Option String) (hr : List String) (w : World) (a : IpAddr) (nw : IpNetwork)
    (h1 : ip_address vip = some a) (h2 : ip_network cidr = some nw) :
    ((plug_vip vip cidr gw mac mtu vr hr w).2.1).netnsExists = true := by
  by_cases hg : (ensureNetns w).netnsLinks.any (fun l => l.mac == mac) = true
  · rw [plug_vip_conflict vip cidr gw mac mtu vr hr w a nw h1 h2 hg]
    exact ensureNetns_netnsExists w
  · have hg' : (ensureNetns w).netnsLinks.any (fun l => l.mac == mac) = false := by
      simpa using hg
    cases hf : w.defaultLinks.find? (fun l => l.mac == mac) with
    | none =>
      rw [plug_vip_notfound vip cidr gw mac mtu vr hr w a nw h1 h2 hg' hf]
      exact ensureNetns_netnsExists w
    | some l0 =>
      rw [plug_vip_success vip cidr gw mac mtu vr hr w a nw l0 h1 h2 hg' hf]

/-- Every branch of `plug_network` leaves the namespace in existence:
the idempotency guard itself creates it. -/
theorem plug_network_world_netnsExists (mac : String) (ips : List String)
    (mtu : Option Nat) (w : World) :
    ((plug_network mac ips mtu w).2.1).netnsExists = true := by
  by_cases hg : (ensureNetns w).netnsLinks.any (fun l => l.mac == mac) = true
  · rw [plug_network_conflict mac ips mtu w hg]
    exact ensureNetns_netnsExists w
  · have hg' : (ensureNetns w).netnsLinks.any (fun l => l.mac == mac) = false := by
      simpa using hg
    by_cases hchk : check_ip_addresses ips = true
    · cases hf : w.defaultLinks.find? (fun l => l.mac == mac) with
      | none =>
        rw [plug_network_notfound mac ips mtu w hg' hchk hf]
        exact ensureNetns_netnsExists w
      | some l0 =>
        rw [plug_network_success mac ips mtu w l0 hg' hchk hf]
    · have hchk' : check_ip_addresses ips = false := by simpa using hchk
      rw [plug_network_invalid mac ips mtu w hg' hchk']
      exact ensureNetns_netnsExists w

/-! ## Claims -/

/-- C5: for every input where the VIP address or the subnet CIDR fails
to parse, `plug_vip` returns ValidationError (status 400) with no
observable mutation at all: the world is returned unchanged and the
effect trace is empty (no namespace interaction, no file write, no
ledger append, no kernel-state change). -/
theorem plug_vip_parse_failure_no_mutation (vip cidr gw mac : String)
    (mtu : Option Nat) (vr : Option String) (hr : List String) (w : World)
    (h : ip_address vip = none ∨ ip_network cidr = none) :
    plug_vip vip cidr gw mac mtu vr hr w = (⟨400, "Invalid VIP"⟩, w, []) := by
  unfold plug_vip
  rcases h with h | h
  · rw [h]
  · rw [h]
    cases ip_address vip <;> rfl

/-- Witness for C5 at a concrete malformed VIP. -/
theorem plug_vip_parse_failure_no_mutation_witness :
    plug_vip "bogus" "10.0.0.0/24" "10.0.0.1" demoMac none none [] wDemo =
      (⟨400, "Invalid VIP"⟩, wDemo, []) :=
  plug_vip_parse_failure_no_mutation "bogus" "10.0.0.0/24" "10.0.0.1" demoMac
    none none [] wDemo (Or.inl (by decide))

/-- C3: for a hardware address absent from the default namespace (and
the rescan trigger file present, as on any PCI system), the lookup
returns the NotFound error (status 404) and its effect trace is exactly
one write to the rescan trigger — one remediation write, no retry of
the lookup. -/
theorem interface_by_mac_absent_one_rescan_then_404 (mac : String) (w : World)
    (habs : w.defaultLinks.find? (fun l => l.mac == mac) = none)
    (hfile : w.rescanFileExists = true) :
    interface_by_mac mac w =
      (Except.error ⟨404, "No suitable network interface found"⟩,
       [Event.rescanWrite]) := by
  unfold interface_by_mac
  rw [habs, hfile]
  rfl

/-- Witness for C3: no link carries the address. -/
theorem interface_by_mac_absent_one_rescan_then_404_witness :
    interface_by_mac demoMac wNoLink =
      (Except.error ⟨404, "No suitable network interface found"⟩,
       [Event.rescanWrite]) :=
  interface_by_mac_absent_one_rescan_then_404 demoMac wNoLink (by decide) (by decide)

/-- C2 counterexample: a `plug_network` call whose fixed IP fails to
parse returns ValidationError, yet the target namespace — absent
beforehand — exists afterwards: the idempotency guard runs before
validation and opens the namespace with `O_CREAT`, so "no namespace is
created" is false. -/
theorem plug_network_invalid_ip_creates_namespace :
    wDemo.netnsExists = false ∧
    (plug_network demoMac ["not-an-ip"] none wDemo).1 =
      ⟨400, "Invalid network port"⟩ ∧
    ((plug_network demoMac ["not-an-ip"] none wDemo).2.1).netnsExists = true := by
  refine ⟨rfl, by decide, by decide⟩

/-- C2 as amended: when the hardware address is not already in the
target namespace and some fixed IP fails to parse as IPv4 or IPv6,
`plug_network` returns ValidationError, writes no configuration file
and appends no ledger line — but the target namespace is created if it
was absent (the guard's `O_CREAT` side effect, the only mutation). -/
theorem plug_network_invalid_ip_validation (mac : String) (ips : List String)
    (mtu : Option Nat) (w : World)
    (hg : (ensureNetns w).netnsLinks.any (fun l => l.mac == mac) = false)
    (hchk : check_ip_addresses ips = false) :
    (plug_network mac ips mtu w).1 = ⟨400, "Invalid network port"⟩ ∧
    ((plug_network mac ips mtu w).2.1).ledger = w.ledger ∧
    ((plug_network mac ips mtu w).2.1).defaultLinks = w.defaultLinks ∧
    (plug_network mac ips mtu w).2.2 =
      (if w.netnsExists then [] else [Event.netnsCreate]) ∧
    (plug_network mac ips mtu w).2.1 = ensureNetns w := by
  rw [plug_network_invalid mac ips mtu w hg hchk]
  exact ⟨rfl, ensureNetns_ledger w, ensureNetns_defaultLinks w, rfl, rfl⟩

/-- Witness for the amended C2. -/
theorem plug_network_invalid_ip_validation_witness :
    (plug_network demoMac ["not-an-ip"] none wDemo).1 =
      ⟨400, "Invalid network port"⟩ ∧
    ((plug_network demoMac ["not-an-ip"] none wDemo).2.1).ledger = wDemo.ledger ∧
    ((plug_network demoMac ["not-an-ip"] none wDemo).2.1).defaultLinks =
      wDemo.defaultLinks ∧
    (plug_network demoMac ["not-an-ip"] none wDemo).2.2 =
      (if wDemo.netnsExists then [] else [Event.netnsCreate]) ∧
    (plug_network demoMac ["not-an-ip"] none wDemo).2.1 = ensureNetns wDemo :=
  plug_network_invalid_ip_validation demoMac ["not-an-ip"] none wDemo
    (by decide) (by decide)

/-- C10: every `plug_network` call, and every `plug_vip` call that
passes input validation, reaches the namespace-membership guard, whose
`O_CREAT` open creates the target namespace when absent — so whatever
the outcome (Conflict, Validation, NotFound, mid-workflow failure or
success), the namespace exists afterwards. -/
theorem guard_creates_namespace :
    (∀ (mac : String) (ips : List String) (mtu : Option Nat) (w : World),
      ((plug_network mac ips mtu w).2.1).netnsExists = true) ∧
    (∀ (vip cidr gw mac : String) (mtu : Option Nat) (vr : Option String)
      (hr : List String) (w : World) (a : IpAddr) (nw : IpNetwork),
      ip_address vip = some a → ip_network cidr = some nw →
      ((plug_vip vip cidr gw mac mtu vr hr w).2.1).netnsExists = true) :=
  ⟨fun mac ips mtu w => plug_network_world_netnsExists mac ips mtu w,
   fun vip cidr gw mac mtu vr hr w a nw h1 h2 =>
     plug_vip_world_netnsExists vip cidr gw mac mtu vr hr w a nw h1 h2⟩

/-- Witness for C10: a validation-failing `plug_network` call and a
successful `plug_vip` call, both on a world without the namespace. -/
theorem guard_creates_namespace_witness :
    ((plug_network demoMac ["not-an-ip"] none wDemo).2.1).netnsExists = true ∧
    ((plug_vip "10.0.0.5" "10.0.0.0/24" "10.0.0.1" demoMac none none []
        wDemo).2.1).netnsExists = true :=
  ⟨guard_creates_namespace.1 demoMac ["not-an-ip"] none wDemo,
   guard_creates_namespace.2 "10.0.0.5" "10.0.0.0/24" "10.0.0.1" demoMac
     none none [] wDemo ⟨4, "10.0.0.5"⟩ ⟨24⟩ (by decide) (by decide)⟩

/-- C1 counterexample: in an environment where `modprobe ip_vs` exits
with status 1, `plug_vip` nevertheless returns success (202) and the
remaining steps — the interface transplant and the bring-up — still
execute.  The non-zero exit status does not propagate as a SystemError
and does not abort the workflow: the source calls `wait()` but never
examines the returned status. -/
theorem plug_vip_nonzero_exit_not_system_error :
    (plug_vip "10.0.0.5" "10.0.0.0/24" "10.0.0.1" demoMac none none []
        wBadExit).1.status = 202 ∧
    Event.nsCmd ["modprobe", "ip_vs"] 1 ∈
      (plug_vip "10.0.0.5" "10.0.0.0/24" "10.0.0.1" demoMac none none []
        wBadExit).2.2 ∧
    Event.linkMove demoMac NETNS_PRIMARY_INTERFACE ∈
      (plug_vip "10.0.0.5" "10.0.0.0/24" "10.0.0.1" demoMac none none []
        wBadExit).2.2 ∧
    Event.bringUp NETNS_PRIMARY_INTERFACE ∈
      (plug_vip "10.0.0.5" "10.0.0.0/24" "10.0.0.1" demoMac none none []
        wBadExit).2.2 := by
  refine ⟨by decide, by decide, by decide, by decide⟩

/-- C1 as amended: in the kernel-configuration phase every spawned
command is waited on until it exits — the trace records, in order, each
command with the exit status the environment returned — but that status
is ignored: whatever statuses the environment (`w.exitCode`, fully
arbitrary here) reports, the workflow proceeds to the transplant and
bring-up and returns success. -/
theorem plug_vip_cmds_waited_exit_ignored (vip cidr gw mac : String)
    (mtu : Option Nat) (vr : Option String) (hr : List String) (w : World)
    (a : IpAddr) (nw : IpNetwork) (l0 : Link)
    (h1 : ip_address vip = some a) (h2 : ip_network cidr = some nw)
    (h3 : (ensureNetns w).netnsLinks.any (fun l => l.mac == mac) = false)
    (h4 : w.defaultLinks.find? (fun l => l.mac == mac) = some l0) :
    (plug_vip vip cidr gw mac mtu vr hr w).1.status = 202 ∧
    cmdRunsOf (plug_vip vip cidr gw mac mtu vr hr w).2.2 =
      ([SYSCTL_CMD, "--system"] :: cmd_list a.version).map
        (fun c => (c, w.exitCode c)) ∧
    Event.linkMove mac NETNS_PRIMARY_INTERFACE ∈
      (plug_vip vip cidr gw mac mtu vr hr w).2.2 ∧
    Event.bringUp NETNS_PRIMARY_INTERFACE ∈
      (plug_vip vip cidr gw mac mtu vr hr w).2.2 := by
  rw [plug_vip_success vip cidr gw mac mtu vr hr w a nw l0 h1 h2 h3 h4]
  refine ⟨rfl, ?_, ?_, ?_⟩
  · simp only [cmdRunsOf_append, cmdRunsOf_ite_create, cmdRunsOf_upd,
      cmdRunsOf_cons_nsCmd, cmdRunsOf_nsCmds, List.map_cons]
    simp [cmdRunsOf]
  · simp
  · simp

/-- Witness for the amended C1, in the environment where `modprobe`
fails. -/
theorem plug_vip_cmds_waited_exit_ignored_witness :
    (plug_vip "10.0.0.5" "10.0.0.0/24" "10.0.0.1" demoMac none none []
        wBadExit).1.status = 202 ∧
    cmdRunsOf (plug_vip "10.0.0.5" "10.0.0.0/24" "10.0.0.1" demoMac none none []
        wBadExit).2.2 =
      ([SYSCTL_CMD, "--system"] :: cmd_list (4 : Nat)).map
        (fun c => (c, wBadExit.exitCode c)) ∧
    Event.linkMove demoMac NETNS_PRIMARY_INTERFACE ∈
      (plug_vip "10.0.0.5" "10.0.0.0/24" "10.0.0.1" demoMac none none []
        wBadExit).2.2 ∧
    Event.bringUp NETNS_PRIMARY_INTERFACE ∈
      (plug_vip "10.0.0.5" "10.0.0.0/24" "10.0.0.1" demoMac none none []
        wBadExit).2.2 :=
  plug_vip_cmds_waited_exit_ignored "10.0.0.5" "10.0.0.0/24" "10.0.0.1" demoMac
    none none [] wBadExit ⟨4, "10.0.0.5"⟩ ⟨24⟩ ⟨demoMac, "ens3"⟩
    (by decide) (by decide) (by decide) (by decide)

/-- C8: every successful `plug_vip` renames the transplanted interface
to the namespace's fixed primary name — the VIP carrier joins the
namespace as `NETNS_PRIMARY_INTERFACE`, whatever the inputs. -/
theorem plug_vip_primary_interface_name (vip cidr gw mac : String)
    (mtu : Option Nat) (vr : Option String) (hr : List String) (w : World)
    (a : IpAddr) (nw : IpNetwork) (l0 : Link)
    (h1 : ip_address vip = some a) (h2 : ip_network cidr = some nw)
    (h3 : (ensureNetns w).netnsLinks.any (fun l => l.mac == mac) = false)
    (h4 : w.defaultLinks.find? (fun l => l.mac == mac) = some l0) :
    (plug_vip vip cidr gw mac mtu vr hr w).1.status = 202 ∧
    ((plug_vip vip cidr gw mac mtu vr hr w).2.1).netnsLinks =
      (ensureNetns w).netnsLinks ++ [⟨mac, NETNS_PRIMARY_INTERFACE⟩] ∧
    Event.linkMove mac NETNS_PRIMARY_INTERFACE ∈
      (plug_vip vip cidr gw mac mtu vr hr w).2.2 := by
  rw [plug_vip_success vip cidr gw mac mtu vr hr w a nw l0 h1 h2 h3 h4]
  exact ⟨rfl, rfl, by simp⟩

/-- Witness for C8. -/
theorem plug_vip_primary_interface_name_witness :
    (plug_vip "10.0.0.5" "10.0.0.0/24" "10.0.0.1" demoMac none none []
        wDemo).1.status = 202 ∧
    ((plug_vip "10.0.0.5" "10.0.0.0/24" "10.0.0.1" demoMac none none []
        wDemo).2.1).netnsLinks =
      (ensureNetns wDemo).netnsLinks ++ [⟨demoMac, NETNS_PRIMARY_INTERFACE⟩] ∧
    Event.linkMove demoMac NETNS_PRIMARY_INTERFACE ∈
      (plug_vip "10.0.0.5" "10.0.0.0/24" "10.0.0.1" demoMac none none []
        wDemo).2.2 :=
  plug_vip_primary_interface_name "10.0.0.5" "10.0.0.0/24" "10.0.0.1" demoMac
    none none [] wDemo ⟨4, "10.0.0.5"⟩ ⟨24⟩ ⟨demoMac, "ens3"⟩
    (by decide) (by decide) (by decide) (by decide)

/-- C9: the kernel-defaults phase of `plug_vip` runs, in this order:
the namespace-scoped `sysctl --system` reload, `modprobe ip_vs`, the
conntrack enable, then family-specific forwarding — global IPv4
forwarding for a version-4 VIP, all-interfaces IPv6 forwarding for a
version-6 VIP. -/
theorem plug_vip_kernel_defaults_order (vip cidr gw mac : String)
    (mtu : Option Nat) (vr : Option String) (hr : List String) (w : World)
    (a : IpAddr) (nw : IpNetwork) (l0 : Link)
    (h1 : ip_address vip = some a) (h2 : ip_network cidr = some nw)
    (h3 : (ensureNetns w).netnsLinks.any (fun l => l.mac == mac) = false)
    (h4 : w.defaultLinks.find? (fun l => l.mac == mac) = some l0) :
    cmdsOf (plug_vip vip cidr gw mac mtu vr hr w).2.2 =
      [[SYSCTL_CMD, "--system"], ["modprobe", "ip_vs"],
       [SYSCTL_CMD, "-w", "net.ipv4.vs.conntrack=1"]] ++
      (if a.version = 4 then [[SYSCTL_CMD, "-w", "net.ipv4.ip_forward=1"]]
       else if a.version = 6 then
         [[SYSCTL_CMD, "-w", "net.ipv6.conf.all.forwarding=1"]]
       else []) := by
  rw [plug_vip_success vip cidr gw mac mtu vr hr w a nw l0 h1 h2 h3 h4]
  simp only [cmdsOf_append, cmdsOf_ite_create, cmdsOf_upd, cmdsOf_cons_nsCmd,
    cmdsOf_nsCmds]
  simp [cmdsOf, cmd_list]
  by_cases h4v : a.version = 4
  · simp [h4v]
  · by_cases h6v : a.version = 6 <;> simp [h4v, h6v]

/-- Witness for C9: an IPv4 VIP and an IPv6 VIP. -/
theorem plug_vip_kernel_defaults_order_witness :
    cmdsOf (plug_vip "10.0.0.5" "10.0.0.0/24" "10.0.0.1" demoMac none none []
        wDemo).2.2 =
      [[SYSCTL_CMD, "--system"], ["modprobe", "ip_vs"],
       [SYSCTL_CMD, "-w", "net.ipv4.vs.conntrack=1"]] ++
      (if (4 : Nat) = 4 then [[SYSCTL_CMD, "-w", "net.ipv4.ip_forward=1"]]
       else if (4 : Nat) = 6 then
         [[SYSCTL_CMD, "-w", "net.ipv6.conf.all.forwarding=1"]]
       else []) ∧
    cmdsOf (plug_vip "2001:0db8:0000:0000:0000:0000:0000:0005"
        "2001:0db8:0000:0000:0000:0000:0000:0000/64"
        "2001:0db8:0000:0000:0000:0000:0000:0001" demoMac none none []
        wDemo).2.2 =
      [[SYSCTL_CMD, "--system"], ["modprobe", "ip_vs"],
       [SYSCTL_CMD, "-w", "net.ipv4.vs.conntrack=1"]] ++
      (if (6 : Nat) = 4 then [[SYSCTL_CMD, "-w", "net.ipv4.ip_forward=1"]]
       else if (6 : Nat) = 6 then
         [[SYSCTL_CMD, "-w", "net.ipv6.conf.all.forwarding=1"]]
       else []) :=
  ⟨plug_vip_kernel_defaults_order "10.0.0.5" "10.0.0.0/24" "10.0.0.1" demoMac
     none none [] wDemo ⟨4, "10.0.0.5"⟩ ⟨24⟩ ⟨demoMac, "ens3"⟩
     (by decide) (by decide) (by decide) (by decide),
   plug_vip_kernel_defaults_order "2001:0db8:0000:0000:0000:0000:0000:0005"
     "2001:0db8:0000:0000:0000:0000:0000:0000/64"
     "2001:0db8:0000:0000:0000:0000:0000:0001" demoMac none none [] wDemo
     ⟨6, "2001:0db8:0000:0000:0000:0000:0000:0005"⟩ ⟨64⟩ ⟨demoMac, "ens3"⟩
     (by decide) (by decide) (by decide) (by decide)⟩

/-- C6: `plug_network` names the new interface `eth{count}` where
`count` is the number of links the target namespace holds at the moment
of naming — read after the namespace open, immediately before the
transplant; the written configuration, the transplant, and the response
all use that name. -/
theorem plug_network_names_eth_count (mac : String) (ips : List String)
    (mtu : Option Nat) (w : World) (l0 : Link)
    (hg : (ensureNetns w).netnsLinks.any (fun l => l.mac == mac) = false)
    (hchk : check_ip_addresses ips = true)
    (hf : w.defaultLinks.find? (fun l => l.mac == mac) = some l0) :
    (plug_network mac ips mtu w).1 =
      ⟨202, "Plugged on interface " ++
        ("eth" ++ toString (ensureNetns w).netnsLinks.length)⟩ ∧
    Event.writePortFile ("eth" ++ toString (ensureNetns w).netnsLinks.length)
        ips mtu ∈ (plug_network mac ips mtu w).2.2 ∧
    Event.linkMove mac ("eth" ++ toString (ensureNetns w).netnsLinks.length) ∈
      (plug_network mac ips mtu w).2.2 := by
  rw [plug_network_success mac ips mtu w l0 hg hchk hf]
  exact ⟨rfl, by simp, by simp⟩

/-- Witness for C6: a namespace holding 2 links yields `eth2`; the
1-link case (`eth1`) is exercised on a fresh namespace, which holds
exactly loopback. -/
theorem plug_network_names_eth_count_witness :
    ((plug_network demoMac2 ["192.168.1.10", "192.168.1.11"] none
        wTwoLinks).1 =
      ⟨202, "Plugged on interface " ++
        ("eth" ++ toString (ensureNetns wTwoLinks).netnsLinks.length)⟩ ∧
     Event.writePortFile
        ("eth" ++ toString (ensureNetns wTwoLinks).netnsLinks.length)
        ["192.168.1.10", "192.168.1.11"] none ∈
       (plug_network demoMac2 ["192.168.1.10", "192.168.1.11"] none
         wTwoLinks).2.2 ∧
     Event.linkMove demoMac2
        ("eth" ++ toString (ensureNetns wTwoLinks).netnsLinks.length) ∈
       (plug_network demoMac2 ["192.168.1.10", "192.168.1.11"] none
         wTwoLinks).2.2) ∧
    toString (ensureNetns wTwoLinks).netnsLinks.length = "2" ∧
    toString (ensureNetns wDemo).netnsLinks.length = "1" :=
  ⟨plug_network_names_eth_count demoMac2 ["192.168.1.10", "192.168.1.11"] none
     wTwoLinks ⟨demoMac2, "ens4"⟩ (by decide) (by decide) (by decide),
   by decide, by decide⟩

/-- C7: the ledger record operation appends `<hardwareAddress> <name>`
only when no existing line's first token is that hardware address, so
any sequence of record calls — with genuine (nonempty, whitespace-free)
hardware addresses — starting from a duplicate-free ledger never
produces two lines for the same hardware address. -/
theorem ledger_record_no_duplicates (pairs : List (String × String)) (w : World)
    (hmacs : ∀ p ∈ pairs, validMac p.1 = true)
    (hstart : ∀ x, ledgerCount w.ledger x ≤ 1) (m : String) :
    ledgerCount ((runRecords pairs w).ledger) m ≤ 1 := by
  induction pairs generalizing w with
  | nil => exact hstart m
  | cons p ps ih =>
    have hmacs' : ∀ q ∈ ps, validMac q.1 = true :=
      fun q hq => hmacs q (List.mem_cons_of_mem _ hq)
    apply ih _ hmacs'
    intro x
    rw [upd_ledger]
    by_cases hmem : p.1 ∈ w.ledger.map firstTok
    · rw [if_pos hmem]
      exact hstart x
    · rw [if_neg hmem, ledgerCount_append]
      by_cases hx : x = p.1
      · subst hx
        rw [ledgerCount_eq_zero_of_not_mem hmem,
          ledgerCount_singleton_self _ _ (hmacs p (by simp))]
      · have hz : ledgerCount [p.1 ++ " " ++ p.2] x = 0 := by
          apply ledgerCount_eq_zero_of_not_mem
          simp only [List.map_cons, List.map_nil, List.mem_singleton,
            firstTok_of_validMac _ _ (hmacs p (by simp))]
          exact hx
        rw [hz]
        have := hstart x
        omega

/-- Witness for C7: recording the same hardware address twice from an
empty ledger leaves at most one line for it. -/
theorem ledger_record_no_duplicates_witness :
    ledgerCount ((runRecords [(demoMac, "eth1"), (demoMac, "eth2")]
        wDemo).ledger) demoMac ≤ 1 :=
  ledger_record_no_duplicates [(demoMac, "eth1"), (demoMac, "eth2")] wDemo
    (by decide) (fun x => by simp [ledgerCount, wDemo]) demoMac

/-- C4: calling `plug_vip` twice with identical arguments, the first
call succeeding, yields success then ConflictError; the second call
mutates nothing (same world, empty trace), and afterwards the namespace
holds exactly one interface with the hardware address and the ledger
exactly one line for it.  (The pre-states allowed are those in which
the first call can succeed and the ledger is not already corrupted with
duplicate lines for the address.) -/
theorem plug_vip_twice_idempotent (vip cidr gw mac : String) (mtu : Option Nat)
    (vr : Option String) (hr : List String) (w : World) (a : IpAddr)
    (nw : IpNetwork) (l0 : Link)
    (h1 : ip_address vip = some a) (h2 : ip_network cidr = some nw)
    (h3 : (ensureNetns w).netnsLinks.any (fun l => l.mac == mac) = false)
    (h4 : w.defaultLinks.find? (fun l => l.mac == mac) = some l0)
    (h5 : validMac mac = true) (h6 : ledgerCount w.ledger mac ≤ 1) :
    (plug_vip vip cidr gw mac mtu vr hr w).1.status = 202 ∧
    plug_vip vip cidr gw mac mtu vr hr
        ((plug_vip vip cidr gw mac mtu vr hr w).2.1) =
      (⟨409, "Interface already exists"⟩,
       (plug_vip vip cidr gw mac mtu vr hr w).2.1, []) ∧
    ((plug_vip vip cidr gw mac mtu vr hr w).2.1).netnsLinks.countP
        (fun l => l.mac == mac) = 1 ∧
    ledgerCount ((plug_vip vip cidr gw mac mtu vr hr w).2.1).ledger mac = 1 := by
  rw [plug_vip_success vip cidr gw mac mtu vr hr w a nw l0 h1 h2 h3 h4]
  refine ⟨rfl, ?_, ?_, ?_⟩
  · have hg2 : ((ensureNetns
        { defaultLinks := removeFirstMac mac w.defaultLinks
          netnsExists := true
          netnsLinks := (ensureNetns w).netnsLinks ++ [⟨mac, NETNS_PRIMARY_INTERFACE⟩]
          ledger := ((update_plugged_interfaces_file NETNS_PRIMARY_INTERFACE mac
            (ensureNetns w)).1).ledger
          rescanFileExists := w.rescanFileExists
          exitCode := w.exitCode }).netnsLinks.any (fun l => l.mac == mac)) = true := by
      rw [ensureNetns_of_exists rfl]
      simp
    rw [plug_vip_conflict vip cidr gw mac mtu vr hr _ a nw h1 h2 hg2]
    rw [ensureNetns_of_exists rfl]
    rfl
  · have h0 : ∀ l ∈ (ensureNetns w).netnsLinks, ¬(l.mac == mac) = true := by
      intro l hl
      simpa using List.any_eq_false.mp h3 l hl
    simp [List.countP_append, List.countP_cons, List.countP_eq_zero.mpr h0]
  · show ledgerCount ((update_plugged_interfaces_file NETNS_PRIMARY_INTERFACE mac
      (ensureNetns w)).1).ledger mac = 1
    rw [upd_ledger, ensureNetns_ledger]
    by_cases hmem : mac ∈ w.ledger.map firstTok
    · rw [if_pos hmem]
      have := ledgerCount_pos_of_mem hmem
      omega
    · rw [if_neg hmem, ledgerCount_append,
        ledgerCount_eq_zero_of_not_mem hmem,
        ledgerCount_singleton_self _ _ h5]

/-- Witness for C4 on a fresh appliance. -/
theorem plug_vip_twice_idempotent_witness :
    (plug_vip "10.0.0.5" "10.0.0.0/24" "10.0.0.1" demoMac none none []
        wDemo).1.status = 202 ∧
    plug_vip "10.0.0.5" "10.0.0.0/24" "10.0.0.1" demoMac none none []
        ((plug_vip "10.0.0.5" "10.0.0.0/24" "10.0.0.1" demoMac none none []
          wDemo).2.1) =
      (⟨409, "Interface already exists"⟩,
       (plug_vip "10.0.0.5" "10.0.0.0/24" "10.0.0.1" demoMac none none []
         wDemo).2.1, []) ∧
    ((plug_vip "10.0.0.5" "10.0.0.0/24" "10.0.0.1" demoMac none none []
        wDemo).2.1).netnsLinks.countP (fun l => l.mac == demoMac) = 1 ∧
    ledgerCount ((plug_vip "10.0.0.5" "10.0.0.0/24" "10.0.0.1" demoMac none
        none [] wDemo).2.1).ledger demoMac = 1 :=
  plug_vip_twice_idempotent "10.0.0.5" "10.0.0.0/24" "10.0.0.1" demoMac
    none none [] wDemo ⟨4, "10.0.0.5"⟩ ⟨24⟩ ⟨demoMac, "ens3"⟩
    (by decide) (by decide) (by decide) (by decide) (by decide) (by decide)

end Plug
